import Mathlib

/-!
Verification of the yggdrasil daemon startup/shutdown coordination
(cmd/yggd/main.go, the app.Action closure, lines 64-203).

The embedding models the concurrent part of app.Action (from the
signal.Notify call at line 87 to the return at line 202) as five threads
of events: the main task, the process-manager goroutine (lines 132-144),
the dispatcher goroutine (lines 147-156), the message-router goroutine
(lines 160-190), and the operating system delivering termination signals
into the buffered quit channel (lines 87-88).  Construction of the four
components (lines 90-108) precedes all wiring, touches no shared state
relevant to the claims, and is omitted.

Each goroutine body is straight-line code whose branches depend only on
the outcomes of the external calls it makes (BootstrapWorkers,
ListenAndServe, ConnectClient, GetCanonicalFacts, json.Marshal, Publish,
Subscribe, KillAllWorkers).  An Outcomes record fixes those results; each
thread then contributes a determined list of events, and an execution is
an interleaving of (prefixes of) the five event lists subject to the
synchronization rules of the two kinds of channels involved:

* quit, a buffered channel of capacity one (line 87): a send completes
  only when the buffer is empty, a receive only when it is full; the
  runtime drops an OS signal whose delivery would block.
* signal-subscription channels returned by Connect: a published value is
  delivered only to subscriptions connected at publish time (values
  published with no subscriber are dropped, not buffered) and a receive
  consumes one delivered value.  The implementations of Connect and of
  the components live outside this repository; their delivery semantics
  here are modelled from the spec (section 3, Signal).

The shared variable err (closed over by all goroutines) is modelled by
reading the trace: its value at any point is the value of the most
recent setErr event, and the exit status computed at lines 192-202 is a
function of the trace (reported below).
-/

namespace Yggd

/-- The error values that the external calls of app.Action can return.
One constructor per failing operation of the source. -/
inductive GoErr where
  | bootstrapError
  | connectionError
  | subscribeError
  | publishError
  | acceptLoopError
  | factsError
  | marshalError
  | killError
  deriving DecidableEq, Fintype

/-- Abstract canonical-facts snapshot (the value returned by
yggdrasil.GetCanonicalFacts at line 171). -/
abbrev Facts := Nat

/-- Abstract result of json.Marshal (line 176): kept as a constructor
applied to the marshalled value, so that equal inputs give equal bytes
and different inputs stay distinguishable. -/
inductive Bytes where
  | json (f : Option Facts)
  deriving DecidableEq

/-- The seven named signals wired in app.Action (lines 111-159). -/
inductive Sig where
  | processDie
  | messageRecv
  | assignmentCreate
  | workComplete
  | assignmentReturn
  | dispatcherListen
  | processBootstrap
  deriving DecidableEq

/-- Thread identifiers: the main task, the three startup goroutines of
app.Action, and the operating system acting on the quit channel. -/
inductive Tid where
  | main
  | pm
  | disp
  | mr
  | os
  deriving DecidableEq, Fintype

/-- Events of the embedding.  Each constructor corresponds to one
operation performed by app.Action or by one of its goroutines; calls
that can fail carry their result. -/
inductive Ev where
  /-- signal.Notify(quit, SIGTERM, SIGINT, SIGKILL), lines 87-88. -/
  | signalNotify
  /-- component.Connect(sig), lines 111, 115, 119, 123, 127, 131, 159. -/
  | connectSignal (s : Sig)
  /-- go dispatcher.Handle...Signal(c) and the payloadProcessor handler
  launches, lines 112, 116, 120, 124, 128; the handler bodies live
  outside this repository and none of the claims concern them. -/
  | spawnHandler (s : Sig)
  /-- launch of one of the three modelled goroutines, lines 132, 147, 160. -/
  | spawn (t : Tid)
  /-- a completed receive on the subscription channel for s
  (line 136 and line 164). -/
  | recvSignal (s : Sig)
  /-- a component publishing the value of signal s to the bus. -/
  | publishSignal (s : Sig)
  /-- os.MkdirAll(filepath.Join(LibexecDir, LongName), 0755), line 139;
  the returned error is ignored by the source. -/
  | mkdirAll
  /-- processManager.BootstrapWorkers(p), line 140. -/
  | bootstrapWorkers (res : Option GoErr)
  /-- return of dispatcher.ListenAndServe(), line 151. -/
  | listenAndServe (res : Option GoErr)
  /-- messageRouter.ConnectClient(), line 166. -/
  | connectClient (res : Option GoErr)
  /-- yggdrasil.GetCanonicalFacts(), line 171. -/
  | getFacts (res : Option GoErr)
  /-- json.Marshal(facts), line 176. -/
  | marshal (facts : Option Facts) (res : Option GoErr)
  /-- messageRouter.Publish(topic, data), line 181. -/
  | publish (topic : String) (payload : Option Bytes) (res : Option GoErr)
  /-- messageRouter.Subscribe(), line 186. -/
  | subscribe (res : Option GoErr)
  /-- assignment err = localErr to the shared error variable
  (lines 141, 153, 167, 173, 178, 182, 187). -/
  | setErr (e : GoErr)
  /-- a completed send on the quit channel: quit <- syscall.SIGTERM on the
  error paths, or delivery of an OS termination signal. -/
  | sendQuit
  /-- the completed receive <-quit of the main task, line 192. -/
  | recvQuit
  /-- processManager.KillAllWorkers(), line 194. -/
  | killAllWorkers (res : Option GoErr)
  /-- the read of the shared err variable at line 198. -/
  | checkErr
  deriving DecidableEq

abbrev TEv := Tid × Ev

/-- Results of the external calls made during one run of app.Action.
Fixing them makes every thread body a determined list of events. -/
structure Outcomes where
  factsVal : Facts
  bootstrapWorkers : Option GoErr
  listenAndServe : Option GoErr
  connectClient : Option GoErr
  getCanonicalFacts : Option GoErr
  jsonMarshal : Option GoErr
  publishHandshake : Option GoErr
  subscribe : Option GoErr
  killAllWorkers : Option GoErr
  deriving DecidableEq

/-- The error-handling tail shared by every failing call in the
goroutines: err = localErr; quit <- syscall.SIGTERM. -/
def errSteps : Option GoErr → List Ev
  | some e => [Ev.setErr e, Ev.sendQuit]
  | none => []

/-- The facts local variable of the message-router goroutine (line 171):
the snapshot on success, the zero value (nil) when GetCanonicalFacts
fails, since the source keeps going either way. -/
def factsVar (o : Outcomes) : Option Facts :=
  match o.getCanonicalFacts with
  | none => some o.factsVal
  | some _ => none

/-- The data local variable of the message-router goroutine (line 176):
the marshalled facts on success, nil bytes when json.Marshal fails. -/
def dataVar (o : Outcomes) : Option Bytes :=
  match o.jsonMarshal with
  | none => some (Bytes.json (factsVar o))
  | some _ => none

/-- The process-manager goroutine, lines 132-144: block on the
dispatcher-listen subscription, create the worker directory, bootstrap
workers, and on failure set the shared error and request shutdown.
Modelled from the spec: BootstrapWorkers itself publishes the
process-bootstrap signal once bootstrap succeeds (spec section 5,
steps 3-4); the ProcessManager implementation is outside this
repository. -/
def pmRoutine (o : Outcomes) : List Ev :=
  [Ev.recvSignal Sig.dispatcherListen, Ev.mkdirAll,
   Ev.bootstrapWorkers o.bootstrapWorkers] ++
  (match o.bootstrapWorkers with
   | none => [Ev.publishSignal Sig.processBootstrap]
   | some e => [Ev.setErr e, Ev.sendQuit])

/-- The dispatcher goroutine, lines 147-156.  Modelled from the spec:
ListenAndServe emits the listen-ready signal once its accept surface is
live (spec section 5, step 1); the Dispatcher implementation is outside
this repository.  On success ListenAndServe serves forever and never
returns; a fatal accept-loop error makes it return, after which the
goroutine sets the shared error and requests shutdown. -/
def dispRoutine (o : Outcomes) : List Ev :=
  Ev.publishSignal Sig.dispatcherListen ::
  (match o.listenAndServe with
   | some e => [Ev.listenAndServe (some e), Ev.setErr e, Ev.sendQuit]
   | none => [])

/-- The message-router goroutine, lines 160-190: block on the
process-bootstrap subscription, then unconditionally, in order, connect
the client, fetch canonical facts, marshal them, publish the handshake
and subscribe, each failing call assigning the shared error and sending
a shutdown request without stopping the goroutine. -/
def mrRoutine (o : Outcomes) : List Ev :=
  Ev.recvSignal Sig.processBootstrap ::
  ((Ev.connectClient o.connectClient :: errSteps o.connectClient) ++
   (Ev.getFacts o.getCanonicalFacts :: errSteps o.getCanonicalFacts) ++
   (Ev.marshal (factsVar o) o.jsonMarshal :: errSteps o.jsonMarshal) ++
   (Ev.publish "handshake" (dataVar o) o.publishHandshake ::
      errSteps o.publishHandshake) ++
   (Ev.subscribe o.subscribe :: errSteps o.subscribe))

/-- The main task of app.Action from line 87 to line 202: register for
OS signals, wire the seven signal subscriptions in source order, spawn
the three goroutines, block on quit, kill all workers, and (when the
kill succeeded, line 194) read the shared error variable at line 198. -/
def mainProg (o : Outcomes) : List Ev :=
  [Ev.signalNotify,
   Ev.connectSignal Sig.processDie, Ev.spawnHandler Sig.processDie,
   Ev.connectSignal Sig.messageRecv, Ev.spawnHandler Sig.messageRecv,
   Ev.connectSignal Sig.assignmentCreate, Ev.spawnHandler Sig.assignmentCreate,
   Ev.connectSignal Sig.workComplete, Ev.spawnHandler Sig.workComplete,
   Ev.connectSignal Sig.assignmentReturn, Ev.spawnHandler Sig.assignmentReturn,
   Ev.connectSignal Sig.dispatcherListen, Ev.spawn Tid.pm,
   Ev.spawn Tid.disp,
   Ev.connectSignal Sig.processBootstrap, Ev.spawn Tid.mr,
   Ev.recvQuit,
   Ev.killAllWorkers o.killAllWorkers] ++
  (match o.killAllWorkers with
   | some _ => []
   | none => [Ev.checkErr])

/-- The events of thread t in a trace, in order. -/
def proj (t : Tid) (tr : List TEv) : List Ev :=
  (tr.filter (fun x => decide (x.1 = t))).map (fun x => x.2)

/-- Boolean test that l1 is an initial segment of l2. -/
def begins : List Ev → List Ev → Bool
  | [], _ => true
  | _ :: _, [] => false
  | a :: l1, b :: l2 => decide (a = b) && begins l1 l2

/-- No event of thread t may occur before the main task has spawned t. -/
def spawnedOk (t : Tid) : List TEv → Bool
  | [] => true
  | x :: rest =>
    if x.1 = t then false
    else if x = (Tid.main, Ev.spawn t) then true
    else spawnedOk t rest

/-- Occupancy discipline of the quit channel (capacity one, line 87):
a completed send requires an empty buffer, a completed receive a full
one. -/
def quitOk : Nat → List TEv → Bool
  | _, [] => true
  | n, x :: rest =>
    match x.2 with
    | Ev.sendQuit => decide (n = 0) && quitOk (n + 1) rest
    | Ev.recvQuit => decide (0 < n) && quitOk (n - 1) rest
    | _ => quitOk n rest

/-- One step of the delivery state of signal s: whether its (unique,
wired once by the main task) subscription exists yet, and how many
published values have been delivered to it and not yet received.
Modelled from the spec: a value published with no current subscriber is
dropped, not buffered (spec section 3, Signal). -/
def sigStep (s : Sig) (st : Bool × Nat) (x : TEv) : Bool × Nat :=
  if x.2 = Ev.connectSignal s then (true, st.2)
  else if x.2 = Ev.publishSignal s then (st.1, if st.1 then st.2 + 1 else st.2)
  else if x.2 = Ev.recvSignal s then (st.1, st.2 - 1)
  else st

/-- A completed receive on the subscription channel of s requires an
undelivered value to be present. -/
def sigOkFrom (s : Sig) : Bool × Nat → List TEv → Bool
  | _, [] => true
  | st, x :: rest =>
    (if x.2 = Ev.recvSignal s then decide (0 < st.2) else true) &&
    sigOkFrom s (sigStep s st x) rest

/-- A valid execution of app.Action under outcomes o: an interleaving
of prefixes of the five thread programs (a goroutine may be anywhere in
its body, or blocked, when the process exits) respecting goroutine
launch order and the channel disciplines. -/
def validTrace (o : Outcomes) (tr : List TEv) : Bool :=
  begins (proj Tid.main tr) (mainProg o) &&
  begins (proj Tid.pm tr) (pmRoutine o) &&
  begins (proj Tid.disp tr) (dispRoutine o) &&
  begins (proj Tid.mr tr) (mrRoutine o) &&
  (proj Tid.os tr).all (fun e => decide (e = Ev.sendQuit)) &&
  spawnedOk Tid.pm tr && spawnedOk Tid.disp tr && spawnedOk Tid.mr tr &&
  quitOk 0 tr &&
  sigOkFrom Sig.processDie (false, 0) tr &&
  sigOkFrom Sig.messageRecv (false, 0) tr &&
  sigOkFrom Sig.assignmentCreate (false, 0) tr &&
  sigOkFrom Sig.workComplete (false, 0) tr &&
  sigOkFrom Sig.assignmentReturn (false, 0) tr &&
  sigOkFrom Sig.dispatcherListen (false, 0) tr &&
  sigOkFrom Sig.processBootstrap (false, 0) tr

/-- A complete execution: the main task ran its whole program, i.e. the
daemon run finished and app.Action returned. -/
def completeTrace (o : Outcomes) (tr : List TEv) : Bool :=
  decide (proj Tid.main tr = mainProg o)

/-- The exit condition of app.Action. -/
inductive ExitRes where
  | errExit (e : GoErr)
  | cleanExit
  deriving DecidableEq

/-- Effect of one event on the shared err variable: only the
assignments err = localErr change it. -/
def updErr (acc : Option GoErr) (e : Ev) : Option GoErr :=
  match e with
  | Ev.setErr x => some x
  | _ => acc

/-- Value held by the shared err variable when the main task reads it at
line 198: the most recent assignment before the checkErr event. -/
def lastErrAux : Option GoErr → List TEv → Option GoErr
  | acc, [] => acc
  | acc, x :: rest =>
    if x.2 = Ev.checkErr then acc
    else lastErrAux (updErr acc x.2) rest

/-- First error assigned to the shared err variable in a trace. -/
def firstErr : List TEv → Option GoErr
  | [] => none
  | x :: rest => match x.2 with | Ev.setErr e => some e | _ => firstErr rest

/-- Exit status of a complete run, lines 192-202: a KillAllWorkers
failure is returned at line 195; otherwise the shared error variable is
read at line 198 and a non-nil value returned as cli.NewExitError(err, 1);
otherwise app.Action returns nil. -/
def reported (o : Outcomes) (tr : List TEv) : ExitRes :=
  match o.killAllWorkers with
  | some e => ExitRes.errExit e
  | none =>
    match lastErrAux none tr with
    | some e => ExitRes.errExit e
    | none => ExitRes.cleanExit

/-! Basic lemmas about projections, prefixes and counting. -/

lemma proj_cons (t : Tid) (x : TEv) (tr : List TEv) :
    proj t (x :: tr) = if x.1 = t then x.2 :: proj t tr else proj t tr := by
  by_cases h : x.1 = t <;> simp [proj, h]

lemma proj_append (t : Tid) (l1 l2 : List TEv) :
    proj t (l1 ++ l2) = proj t l1 ++ proj t l2 := by
  simp [proj, List.filter_append]

lemma mem_proj {t : Tid} {e : Ev} {tr : List TEv} :
    e ∈ proj t tr ↔ (t, e) ∈ tr := by
  simp only [proj, List.mem_map, List.mem_filter, decide_eq_true_eq]
  constructor
  · rintro ⟨⟨t1, e1⟩, ⟨hmem, ht⟩, he⟩
    simp only at ht he
    rw [← ht, ← he] at *
    exact hmem
  · intro h
    exact ⟨(t, e), ⟨h, rfl⟩, rfl⟩

lemma begins_iff : ∀ l1 l2 : List Ev, begins l1 l2 = true ↔ ∃ w, l2 = l1 ++ w := by
  intro l1
  induction l1 with
  | nil => intro l2; simp [begins]
  | cons a l1 ih =>
    intro l2
    cases l2 with
    | nil => simp [begins]
    | cons b l2 =>
      simp only [begins, Bool.and_eq_true, decide_eq_true_eq, ih l2]
      constructor
      · rintro ⟨rfl, w, rfl⟩
        exact ⟨w, rfl⟩
      · rintro ⟨w, hw⟩
        injection hw with h1 h2
        subst h1
        exact ⟨rfl, w, h2⟩

lemma mem_of_begins {l1 l2 : List Ev} (h : begins l1 l2 = true) {e : Ev}
    (he : e ∈ l1) : e ∈ l2 := by
  obtain ⟨w, rfl⟩ := (begins_iff l1 l2).1 h
  exact List.mem_append_left w he

lemma countP_le_of_begins {l1 l2 : List Ev} (h : begins l1 l2 = true)
    (p : Ev → Bool) : l1.countP p ≤ l2.countP p := by
  obtain ⟨w, rfl⟩ := (begins_iff l1 l2).1 h
  simp [List.countP_append]

lemma countP_proj (p : Ev → Bool) : ∀ tr : List TEv,
    tr.countP (fun x => p x.2) =
      (proj Tid.main tr).countP p + (proj Tid.pm tr).countP p +
      (proj Tid.disp tr).countP p + (proj Tid.mr tr).countP p +
      (proj Tid.os tr).countP p := by
  intro tr
  induction tr with
  | nil => simp [proj]
  | cons x rest ih =>
    obtain ⟨t, e⟩ := x
    cases t <;> cases hpe : p e <;>
      simp [proj_cons, List.countP_cons, hpe, ih] <;> omega

lemma mem_left_of_eq_append {a b : Ev} :
    ∀ (pre suf l1 l2 : List Ev), a ∈ pre → b ∉ pre →
      pre ++ suf = l1 ++ b :: l2 → a ∈ l1 := by
  intro pre
  induction pre with
  | nil =>
    intro suf l1 l2 ha
    exact absurd ha (List.not_mem_nil a)
  | cons x pre ih =>
    intro suf l1 l2 ha hb heq
    cases l1 with
    | nil =>
      simp only [List.nil_append, List.cons_append] at heq
      injection heq with h1 _
      exact absurd (List.mem_cons.2 (Or.inl h1.symm)) hb
    | cons y l1 =>
      simp only [List.cons_append] at heq
      injection heq with h1 h2
      rcases List.mem_cons.1 ha with rfl | ha2
      · exact h1 ▸ List.mem_cons_self y l1
      · refine List.mem_cons.2 (Or.inr ?_)
        exact ih suf l1 l2 ha2 (fun hbp => hb (List.mem_cons.2 (Or.inr hbp))) h2

lemma proj_decomp {t : Tid} {b : Ev} (l1 l2 : List TEv) :
    proj t (l1 ++ (t, b) :: l2) = proj t l1 ++ b :: proj t l2 := by
  simp [proj_append, proj_cons]

/-- Core ordering argument: if the program of thread t decomposes as
pre ++ suf with a occurring in pre and b not occurring in pre, then in
any trace whose t-projection is an initial segment of that program,
every occurrence of (t, b) is preceded by an occurrence of (t, a). -/
lemma before_in_trace {t : Tid} {a b : Ev} {prog : List Ev} {tr l1 l2 : List TEv}
    (hpre : begins (proj t tr) prog = true)
    (hdecomp : tr = l1 ++ (t, b) :: l2)
    (pre suf : List Ev) (hp : prog = pre ++ suf) (ha : a ∈ pre) (hb : b ∉ pre) :
    (t, a) ∈ l1 := by
  subst hdecomp
  obtain ⟨w, hw⟩ := (begins_iff _ _).1 hpre
  rw [proj_decomp] at hw
  rw [hp] at hw
  have hsplit : pre ++ suf = proj t l1 ++ b :: (proj t l2 ++ w) := by
    rw [hw]; simp [List.append_assoc]
  exact mem_proj.1 (mem_left_of_eq_append pre suf _ _ ha hb hsplit)

/-! Concrete runs used as witnesses and counterexamples. -/

/-- All external calls succeed. -/
def oClean : Outcomes :=
  ⟨0, none, none, none, none, none, none, none, none⟩

/-- BootstrapWorkers fails and ListenAndServe later returns a fatal
accept-loop error: two fatal errors in one run. -/
def oTwo : Outcomes :=
  ⟨0, some GoErr.bootstrapError, some GoErr.acceptLoopError,
   none, none, none, none, none, none⟩

/-- Only ListenAndServe fails. -/
def oDispFail : Outcomes :=
  ⟨0, none, some GoErr.acceptLoopError, none, none, none, none, none, none⟩

/-- Only ConnectClient fails. -/
def oMrFail : Outcomes :=
  ⟨0, none, none, some GoErr.connectionError, none, none, none, none, none⟩

/-- Bootstrap, accept loop, client connect and subscribe all fail. -/
def oAllFail : Outcomes :=
  ⟨0, some GoErr.bootstrapError, some GoErr.acceptLoopError,
   some GoErr.connectionError, none, none, none, some GoErr.subscribeError, none⟩

/-- The wiring prefix of the main task, lines 87-160: signal
registration, the seven Connect calls with their handler launches, and
the three goroutine launches, in source order. -/
def mainWiring : List TEv :=
  [(Tid.main, Ev.signalNotify),
   (Tid.main, Ev.connectSignal Sig.processDie),
   (Tid.main, Ev.spawnHandler Sig.processDie),
   (Tid.main, Ev.connectSignal Sig.messageRecv),
   (Tid.main, Ev.spawnHandler Sig.messageRecv),
   (Tid.main, Ev.connectSignal Sig.assignmentCreate),
   (Tid.main, Ev.spawnHandler Sig.assignmentCreate),
   (Tid.main, Ev.connectSignal Sig.workComplete),
   (Tid.main, Ev.spawnHandler Sig.workComplete),
   (Tid.main, Ev.connectSignal Sig.assignmentReturn),
   (Tid.main, Ev.spawnHandler Sig.assignmentReturn),
   (Tid.main, Ev.connectSignal Sig.dispatcherListen),
   (Tid.main, Ev.spawn Tid.pm),
   (Tid.main, Ev.spawn Tid.disp),
   (Tid.main, Ev.connectSignal Sig.processBootstrap),
   (Tid.main, Ev.spawn Tid.mr)]

/-- Prefix of the two-error run, up to and including the second
assignment to the shared err variable: the bootstrap failure is
assigned and requests shutdown first, then the accept-loop failure is
assigned while its own quit send is still blocked. -/
def cexC1l1 : List TEv :=
  mainWiring ++
  [(Tid.disp, Ev.publishSignal Sig.dispatcherListen),
   (Tid.pm, Ev.recvSignal Sig.dispatcherListen),
   (Tid.pm, Ev.mkdirAll),
   (Tid.pm, Ev.bootstrapWorkers (some GoErr.bootstrapError)),
   (Tid.pm, Ev.setErr GoErr.bootstrapError),
   (Tid.pm, Ev.sendQuit),
   (Tid.disp, Ev.listenAndServe (some GoErr.acceptLoopError))]

/-- Tail of the two-error run: the main task wakes, kills workers and
reads the shared err variable. -/
def cexC1l2 : List TEv :=
  [(Tid.main, Ev.recvQuit),
   (Tid.main, Ev.killAllWorkers none),
   (Tid.main, Ev.checkErr)]

/-- A complete run of oTwo in which the bootstrap error is assigned
first and the accept-loop error second. -/
def cexTr : List TEv :=
  cexC1l1 ++ (Tid.disp, Ev.setErr GoErr.acceptLoopError) :: cexC1l2

/-- A clean run: no goroutine fails, the operating system delivers a
termination signal, workers are killed, err is still nil. -/
def cleanTr : List TEv :=
  mainWiring ++
  [(Tid.os, Ev.sendQuit),
   (Tid.main, Ev.recvQuit),
   (Tid.main, Ev.killAllWorkers none),
   (Tid.main, Ev.checkErr)]

/-- A run of oDispFail in which an OS termination signal and the
internal fatal error race: the OS signal is delivered first, the
error path sets err and completes its own quit send only after the
main task has drained the buffer. -/
def raceTr : List TEv :=
  mainWiring ++
  [(Tid.os, Ev.sendQuit),
   (Tid.disp, Ev.publishSignal Sig.dispatcherListen),
   (Tid.disp, Ev.listenAndServe (some GoErr.acceptLoopError)),
   (Tid.disp, Ev.setErr GoErr.acceptLoopError),
   (Tid.main, Ev.recvQuit),
   (Tid.disp, Ev.sendQuit),
   (Tid.main, Ev.killAllWorkers none),
   (Tid.main, Ev.checkErr)]

/-- Prefix of a clean run up to the process-manager goroutine having
received the listen-ready signal. -/
def w3l1 : List TEv :=
  mainWiring ++
  [(Tid.disp, Ev.publishSignal Sig.dispatcherListen),
   (Tid.pm, Ev.recvSignal Sig.dispatcherListen)]

/-- Prefix of the full clean run up to and including the worker
directory creation of the process-manager goroutine. -/
def w9l1 : List TEv :=
  w3l1 ++ [(Tid.pm, Ev.mkdirAll)]

/-- Remainder of the full clean run after the BootstrapWorkers call. -/
def w9l2 : List TEv :=
  [(Tid.pm, Ev.publishSignal Sig.processBootstrap),
   (Tid.mr, Ev.recvSignal Sig.processBootstrap),
   (Tid.mr, Ev.connectClient none),
   (Tid.mr, Ev.getFacts none),
   (Tid.mr, Ev.marshal (some 0) none),
   (Tid.mr, Ev.publish "handshake" (some (Bytes.json (some 0))) none),
   (Tid.mr, Ev.subscribe none),
   (Tid.os, Ev.sendQuit),
   (Tid.main, Ev.recvQuit),
   (Tid.main, Ev.killAllWorkers none),
   (Tid.main, Ev.checkErr)]

/-- A complete clean run in which every startup step executes. -/
def fullTr : List TEv :=
  w9l1 ++ (Tid.pm, Ev.bootstrapWorkers none) :: w9l2

/-- Prefix of the full clean run up to the Subscribe call of the
message-router goroutine. -/
def w4l1 : List TEv :=
  w9l1 ++
  [(Tid.pm, Ev.bootstrapWorkers none),
   (Tid.pm, Ev.publishSignal Sig.processBootstrap),
   (Tid.mr, Ev.recvSignal Sig.processBootstrap),
   (Tid.mr, Ev.connectClient none),
   (Tid.mr, Ev.getFacts none),
   (Tid.mr, Ev.marshal (some 0) none),
   (Tid.mr, Ev.publish "handshake" (some (Bytes.json (some 0))) none)]

/-- Remainder of the full clean run after the Subscribe call. -/
def w4l2 : List TEv :=
  [(Tid.os, Ev.sendQuit),
   (Tid.main, Ev.recvQuit),
   (Tid.main, Ev.killAllWorkers none),
   (Tid.main, Ev.checkErr)]

/-- An interleaving allowed by the source in which the dispatcher and
process-manager goroutines run to completion of BootstrapWorkers, and
hence publish the process-bootstrap signal, before the main task has
executed the Connect call of line 159. -/
def tr8a : List TEv :=
  [(Tid.main, Ev.signalNotify),
   (Tid.main, Ev.connectSignal Sig.processDie),
   (Tid.main, Ev.spawnHandler Sig.processDie),
   (Tid.main, Ev.connectSignal Sig.messageRecv),
   (Tid.main, Ev.spawnHandler Sig.messageRecv),
   (Tid.main, Ev.connectSignal Sig.assignmentCreate),
   (Tid.main, Ev.spawnHandler Sig.assignmentCreate),
   (Tid.main, Ev.connectSignal Sig.workComplete),
   (Tid.main, Ev.spawnHandler Sig.workComplete),
   (Tid.main, Ev.connectSignal Sig.assignmentReturn),
   (Tid.main, Ev.spawnHandler Sig.assignmentReturn),
   (Tid.main, Ev.connectSignal Sig.dispatcherListen),
   (Tid.main, Ev.spawn Tid.pm),
   (Tid.main, Ev.spawn Tid.disp),
   (Tid.disp, Ev.publishSignal Sig.dispatcherListen),
   (Tid.pm, Ev.recvSignal Sig.dispatcherListen),
   (Tid.pm, Ev.mkdirAll),
   (Tid.pm, Ev.bootstrapWorkers none),
   (Tid.pm, Ev.publishSignal Sig.processBootstrap)]

/-- The racy interleaving continued: the main task now wires the
process-bootstrap subscription (too late) and launches the
message-router goroutine. -/
def tr8 : List TEv :=
  tr8a ++ [(Tid.main, Ev.connectSignal Sig.processBootstrap),
           (Tid.main, Ev.spawn Tid.mr)]

/-! Unpacking the validity predicate. -/

lemma valid_unpack {o : Outcomes} {tr : List TEv} (h : validTrace o tr = true) :
    begins (proj Tid.main tr) (mainProg o) = true ∧
    begins (proj Tid.pm tr) (pmRoutine o) = true ∧
    begins (proj Tid.disp tr) (dispRoutine o) = true ∧
    begins (proj Tid.mr tr) (mrRoutine o) = true ∧
    (proj Tid.os tr).all (fun e => decide (e = Ev.sendQuit)) = true ∧
    quitOk 0 tr = true ∧
    sigOkFrom Sig.dispatcherListen (false, 0) tr = true ∧
    sigOkFrom Sig.processBootstrap (false, 0) tr = true := by
  simp only [validTrace, Bool.and_eq_true] at h
  tauto

/-! Claim C3. -/

/-- Claim C3: worker bootstrap never starts before the listen-ready
signal: in every valid execution, any creation of the worker directory
and any BootstrapWorkers call by the process-manager goroutine is
preceded by that goroutine having received a value on its
SignalDispatcherListen subscription channel. -/
theorem C3_bootstrap_after_listen_ready (o : Outcomes) (tr l1 l2 : List TEv)
    (hv : validTrace o tr = true)
    (h : tr = l1 ++ (Tid.pm, Ev.mkdirAll) :: l2 ∨
         tr = l1 ++ (Tid.pm, Ev.bootstrapWorkers o.bootstrapWorkers) :: l2) :
    (Tid.pm, Ev.recvSignal Sig.dispatcherListen) ∈ l1 := by
  have hpm := (valid_unpack hv).2.1
  rcases h with h | h
  · exact before_in_trace hpm h [Ev.recvSignal Sig.dispatcherListen] _ rfl
      (by simp) (by simp)
  · exact before_in_trace hpm h [Ev.recvSignal Sig.dispatcherListen] _ rfl
      (by simp) (by simp)

/-- Witness for C3 at a concrete execution. -/
theorem C3_witness : (Tid.pm, Ev.recvSignal Sig.dispatcherListen) ∈ w3l1 :=
  C3_bootstrap_after_listen_ready oClean (w3l1 ++ [(Tid.pm, Ev.mkdirAll)]) w3l1 []
    (by decide) (Or.inl rfl)

/-! Claim C4. -/

/-- Claim C4: broker connect, handshake publish and subscription never
start before the process-bootstrap signal: in every valid execution,
any ConnectClient call, any publish on the handshake topic and any
Subscribe call by the message-router goroutine is preceded by that
goroutine having received a value on its SignalProcessBootstrap
subscription channel. -/
theorem C4_router_after_bootstrap_signal (o : Outcomes) (tr l1 l2 : List TEv)
    (hv : validTrace o tr = true)
    (h : tr = l1 ++ (Tid.mr, Ev.connectClient o.connectClient) :: l2 ∨
         tr = l1 ++ (Tid.mr,
           Ev.publish "handshake" (dataVar o) o.publishHandshake) :: l2 ∨
         tr = l1 ++ (Tid.mr, Ev.subscribe o.subscribe) :: l2) :
    (Tid.mr, Ev.recvSignal Sig.processBootstrap) ∈ l1 := by
  have hmr := (valid_unpack hv).2.2.2.1
  rcases h with h | h | h
  · exact before_in_trace hmr h [Ev.recvSignal Sig.processBootstrap] _ rfl
      (by simp) (by simp)
  · exact before_in_trace hmr h [Ev.recvSignal Sig.processBootstrap] _ rfl
      (by simp) (by simp)
  · exact before_in_trace hmr h [Ev.recvSignal Sig.processBootstrap] _ rfl
      (by simp) (by simp)

/-- Witness for C4 at a concrete execution. -/
theorem C4_witness : (Tid.mr, Ev.recvSignal Sig.processBootstrap) ∈ w4l1 :=
  C4_router_after_bootstrap_signal oClean fullTr w4l1 w4l2
    (by decide) (Or.inr (Or.inr (by decide)))

/-! Claim C9. -/

/-- Counterexample to claim C9: in the source, the caller (the
process-manager goroutine of app.Action, line 139) performs the
directory creation itself as a separate step: the bootstrap routine
contains a distinct MkdirAll event immediately before the
BootstrapWorkers call, refuting that directory creation is not a
separate step performed by the caller before bootstrap. -/
theorem C9_counterexample :
    pmRoutine oClean =
      [Ev.recvSignal Sig.dispatcherListen, Ev.mkdirAll,
       Ev.bootstrapWorkers none, Ev.publishSignal Sig.processBootstrap] ∧
    Ev.mkdirAll ∈ pmRoutine oClean := by decide

/-- Claim C9 (amended): the worker executable directory is created by
the caller: in every valid execution the process-manager goroutine runs
os.MkdirAll on the worker directory as its own step before every
BootstrapWorkers call. -/
theorem C9_caller_creates_directory (o : Outcomes) (tr l1 l2 : List TEv)
    (hv : validTrace o tr = true)
    (h : tr = l1 ++ (Tid.pm, Ev.bootstrapWorkers o.bootstrapWorkers) :: l2) :
    (Tid.pm, Ev.mkdirAll) ∈ l1 := by
  have hpm := (valid_unpack hv).2.1
  exact before_in_trace hpm h
    [Ev.recvSignal Sig.dispatcherListen, Ev.mkdirAll] _ rfl (by simp) (by simp)

/-- Witness for the amended C9 at a concrete execution. -/
theorem C9_witness : (Tid.pm, Ev.mkdirAll) ∈ w9l1 :=
  C9_caller_creates_directory oClean fullTr w9l1 w9l2 (by decide) (by decide)

/-! Claim C2. -/

/-- Recognizer for KillAllWorkers events. -/
def isKillEv : Ev → Bool
  | Ev.killAllWorkers _ => true
  | _ => false

lemma countP_eq_zero_forall {α : Type} (p : α → Bool) :
    ∀ l : List α, l.countP p = 0 ↔ ∀ a ∈ l, p a = false := by
  intro l
  induction l with
  | nil => simp
  | cons x l ih =>
    cases hx : p x <;> simp [List.countP_cons, hx, ih]

lemma countP_errSteps_zero (p : Ev → Bool) (hs : p Ev.sendQuit = false)
    (he : ∀ e, p (Ev.setErr e) = false) :
    ∀ r : Option GoErr, (errSteps r).countP p = 0 := by
  intro r
  cases r <;> simp [errSteps, List.countP_cons, hs, he]

/-- Claim C2: exactly one shutdown sequence executes per complete
daemon run: every complete valid execution, including ones where an OS
termination signal and an internal fatal error race, contains exactly
one KillAllWorkers event. -/
theorem C2_killall_exactly_once (o : Outcomes) (tr : List TEv)
    (hv : validTrace o tr = true) (hc : completeTrace o tr = true) :
    tr.countP (fun x => isKillEv x.2) = 1 := by
  obtain ⟨hmain, hpm, hdisp, hmr, hos, -⟩ := valid_unpack hv
  have hmeq : proj Tid.main tr = mainProg o := by
    simpa [completeTrace] using hc
  have h1 : (proj Tid.main tr).countP isKillEv = 1 := by
    rw [hmeq]
    cases hk : o.killAllWorkers <;>
      simp [mainProg, hk, isKillEv, List.countP_cons, List.countP_append]
  have h2 : (proj Tid.pm tr).countP isKillEv = 0 := by
    have hle := countP_le_of_begins hpm isKillEv
    have hz : (pmRoutine o).countP isKillEv = 0 := by
      cases hb : o.bootstrapWorkers <;>
        simp [pmRoutine, hb, isKillEv, List.countP_cons, List.countP_append]
    omega
  have h3 : (proj Tid.disp tr).countP isKillEv = 0 := by
    have hle := countP_le_of_begins hdisp isKillEv
    have hz : (dispRoutine o).countP isKillEv = 0 := by
      cases hd : o.listenAndServe <;>
        simp [dispRoutine, hd, isKillEv, List.countP_cons]
    omega
  have h4 : (proj Tid.mr tr).countP isKillEv = 0 := by
    have hle := countP_le_of_begins hmr isKillEv
    have hz : (mrRoutine o).countP isKillEv = 0 := by
      simp [mrRoutine, List.countP_cons, List.countP_append, isKillEv,
        countP_errSteps_zero isKillEv rfl (fun _ => rfl)]
    omega
  have h5 : (proj Tid.os tr).countP isKillEv = 0 := by
    rw [countP_eq_zero_forall]
    intro a ha
    have := List.all_eq_true.1 hos a ha
    have ha2 : a = Ev.sendQuit := by simpa using this
    rw [ha2]
    rfl
  rw [countP_proj]
  omega

/-- Witness for C2 at a concrete execution in which an OS termination
signal and an internal fatal error race. -/
theorem C2_witness : raceTr.countP (fun x => isKillEv x.2) = 1 :=
  C2_killall_exactly_once oDispFail raceTr (by decide) (by decide)

/-! Claim C7. -/

/-- Claim C7: each component-level error — a BootstrapWorkers failure,
a ListenAndServe accept-loop failure, a ConnectClient failure or a
Subscribe failure — makes its goroutine assign the shared error and
send a termination request on the shared shutdown channel immediately
after the failing call. -/
theorem C7_component_errors_trigger_shutdown (o : Outcomes) :
    (∀ e, o.bootstrapWorkers = some e →
       pmRoutine o = [Ev.recvSignal Sig.dispatcherListen, Ev.mkdirAll,
         Ev.bootstrapWorkers (some e), Ev.setErr e, Ev.sendQuit]) ∧
    (∀ e, o.listenAndServe = some e →
       dispRoutine o = [Ev.publishSignal Sig.dispatcherListen,
         Ev.listenAndServe (some e), Ev.setErr e, Ev.sendQuit]) ∧
    (∀ e, o.connectClient = some e →
       ∃ suf, mrRoutine o = Ev.recvSignal Sig.processBootstrap ::
         Ev.connectClient (some e) :: Ev.setErr e :: Ev.sendQuit :: suf) ∧
    (∀ e, o.subscribe = some e →
       ∃ pre, mrRoutine o = pre ++ [Ev.subscribe (some e),
         Ev.setErr e, Ev.sendQuit]) := by
  refine ⟨?_, ?_, ?_, ?_⟩
  · intro e h
    simp [pmRoutine, h]
  · intro e h
    simp [dispRoutine, h]
  · intro e h
    refine ⟨(Ev.getFacts o.getCanonicalFacts :: errSteps o.getCanonicalFacts) ++
      (Ev.marshal (factsVar o) o.jsonMarshal :: errSteps o.jsonMarshal) ++
      (Ev.publish "handshake" (dataVar o) o.publishHandshake ::
        errSteps o.publishHandshake) ++
      (Ev.subscribe o.subscribe :: errSteps o.subscribe), ?_⟩
    simp [mrRoutine, h, errSteps]
  · intro e h
    refine ⟨Ev.recvSignal Sig.processBootstrap ::
      ((Ev.connectClient o.connectClient :: errSteps o.connectClient) ++
       (Ev.getFacts o.getCanonicalFacts :: errSteps o.getCanonicalFacts) ++
       (Ev.marshal (factsVar o) o.jsonMarshal :: errSteps o.jsonMarshal) ++
       (Ev.publish "handshake" (dataVar o) o.publishHandshake ::
         errSteps o.publishHandshake)), ?_⟩
    simp [mrRoutine, h, errSteps]

/-- Witness for C7 at a run in which all four component errors occur. -/
theorem C7_witness :
    pmRoutine oAllFail = [Ev.recvSignal Sig.dispatcherListen, Ev.mkdirAll,
      Ev.bootstrapWorkers (some GoErr.bootstrapError),
      Ev.setErr GoErr.bootstrapError, Ev.sendQuit] ∧
    dispRoutine oAllFail = [Ev.publishSignal Sig.dispatcherListen,
      Ev.listenAndServe (some GoErr.acceptLoopError),
      Ev.setErr GoErr.acceptLoopError, Ev.sendQuit] ∧
    (∃ suf, mrRoutine oAllFail = Ev.recvSignal Sig.processBootstrap ::
      Ev.connectClient (some GoErr.connectionError) ::
      Ev.setErr GoErr.connectionError :: Ev.sendQuit :: suf) ∧
    (∃ pre, mrRoutine oAllFail = pre ++ [Ev.subscribe (some GoErr.subscribeError),
      Ev.setErr GoErr.subscribeError, Ev.sendQuit]) :=
  ⟨(C7_component_errors_trigger_shutdown oAllFail).1 GoErr.bootstrapError rfl,
   (C7_component_errors_trigger_shutdown oAllFail).2.1 GoErr.acceptLoopError rfl,
   (C7_component_errors_trigger_shutdown oAllFail).2.2.1 GoErr.connectionError rfl,
   (C7_component_errors_trigger_shutdown oAllFail).2.2.2 GoErr.subscribeError rfl⟩

/-! Claim C10. -/

/-- One when the call failed, zero when it succeeded. -/
def failTally : Option GoErr → Nat
  | some _ => 1
  | none => 0

lemma countP_errSteps_send (r : Option GoErr) :
    (errSteps r).countP (fun x => decide (x = Ev.sendQuit)) = failTally r := by
  cases r <;> simp [errSteps, failTally, List.countP_cons]

/-- Claim C10: when ConnectClient fails the message-router goroutine
does not return early: it still assigns the error and requests
shutdown, and then still runs GetCanonicalFacts, json.Marshal, the
handshake Publish and Subscribe; every further failure also assigns the
shared error, and the goroutine performs one quit-channel send per
failing call. -/
theorem C10_router_continues_after_connect_failure (o : Outcomes) (e : GoErr)
    (h : o.connectClient = some e) :
    Ev.setErr e ∈ mrRoutine o ∧ Ev.sendQuit ∈ mrRoutine o ∧
    Ev.getFacts o.getCanonicalFacts ∈ mrRoutine o ∧
    Ev.marshal (factsVar o) o.jsonMarshal ∈ mrRoutine o ∧
    Ev.publish "handshake" (dataVar o) o.publishHandshake ∈ mrRoutine o ∧
    Ev.subscribe o.subscribe ∈ mrRoutine o ∧
    (∀ x, o.getCanonicalFacts = some x → Ev.setErr x ∈ mrRoutine o) ∧
    (∀ x, o.jsonMarshal = some x → Ev.setErr x ∈ mrRoutine o) ∧
    (∀ x, o.publishHandshake = some x → Ev.setErr x ∈ mrRoutine o) ∧
    (∀ x, o.subscribe = some x → Ev.setErr x ∈ mrRoutine o) ∧
    (mrRoutine o).countP (fun x => decide (x = Ev.sendQuit)) =
      failTally o.connectClient + failTally o.getCanonicalFacts +
      failTally o.jsonMarshal + failTally o.publishHandshake +
      failTally o.subscribe := by
  refine ⟨?_, ?_, ?_, ?_, ?_, ?_, ?_, ?_, ?_, ?_, ?_⟩
  · simp [mrRoutine, h, errSteps]
  · simp [mrRoutine, h, errSteps]
  · simp [mrRoutine]
  · simp [mrRoutine]
  · simp [mrRoutine]
  · simp [mrRoutine]
  · intro x hx; simp [mrRoutine, hx, errSteps]
  · intro x hx; simp [mrRoutine, hx, errSteps]
  · intro x hx; simp [mrRoutine, hx, errSteps]
  · intro x hx; simp [mrRoutine, hx, errSteps]
  · simp [mrRoutine, List.countP_append, List.countP_cons, countP_errSteps_send]
    omega

/-- Witness for C10 at a run in which only ConnectClient fails. -/
theorem C10_witness : Ev.setErr GoErr.connectionError ∈ mrRoutine oMrFail ∧
    Ev.subscribe none ∈ mrRoutine oMrFail :=
  ⟨(C10_router_continues_after_connect_failure oMrFail GoErr.connectionError rfl).1,
   (C10_router_continues_after_connect_failure oMrFail GoErr.connectionError rfl).2.2.2.2.2.1⟩

/-! Claims C1 and C6: what error the exit status reports. -/

lemma updErr_cases (acc : Option GoErr) (e : Ev) :
    updErr acc e = acc ∨ ∃ x, e = Ev.setErr x ∧ updErr acc e = some x := by
  cases e <;> simp [updErr]

lemma lastErrAux_some_mem : ∀ (tr : List TEv) (acc : Option GoErr) (e : GoErr),
    lastErrAux acc tr = some e → acc = some e ∨ ∃ t, (t, Ev.setErr e) ∈ tr := by
  intro tr
  induction tr with
  | nil =>
    intro acc e h
    exact Or.inl h
  | cons x rest ih =>
    intro acc e h
    rw [lastErrAux] at h
    by_cases hc : x.2 = Ev.checkErr
    · rw [if_pos hc] at h
      exact Or.inl h
    · rw [if_neg hc] at h
      rcases ih _ e h with hacc | ⟨t, hm⟩
      · rcases updErr_cases acc x.2 with hu | ⟨y, hy, hu⟩
        · rw [hu] at hacc
          exact Or.inl hacc
        · rw [hu] at hacc
          injection hacc with hye
          refine Or.inr ⟨x.1, List.mem_cons.2 (Or.inl ?_)⟩
          rw [← hye, ← hy]
      · exact Or.inr ⟨t, List.mem_cons.2 (Or.inr hm)⟩

lemma lastErrAux_none : ∀ tr : List TEv,
    (∀ t e, (t, Ev.setErr e) ∉ tr) → lastErrAux none tr = none := by
  intro tr
  induction tr with
  | nil =>
    intro _
    rfl
  | cons x rest ih =>
    intro h
    have hrest : ∀ t e, (t, Ev.setErr e) ∉ rest := by
      intro t e hm
      exact h t e (List.mem_cons.2 (Or.inr hm))
    rw [lastErrAux]
    by_cases hc : x.2 = Ev.checkErr
    · rw [if_pos hc]
    · rw [if_neg hc]
      rcases updErr_cases none x.2 with hu | ⟨y, hy, hu⟩
      · rw [hu]
        exact ih hrest
      · obtain ⟨t1, e1⟩ := x
        simp only at hy
        rw [hy] at h
        exact absurd (List.mem_cons.2 (Or.inl rfl)) (h t1 y)

lemma lastErrAux_append_no_check (l1 : List TEv) :
    ∀ (acc : Option GoErr) (l2 : List TEv),
      (∀ x ∈ l1, x.2 ≠ Ev.checkErr) →
      lastErrAux acc (l1 ++ l2) =
        lastErrAux (List.foldl (fun a (x : TEv) => updErr a x.2) acc l1) l2 := by
  induction l1 with
  | nil =>
    intro acc l2 _
    rfl
  | cons x l1 ih =>
    intro acc l2 h
    have hx : x.2 ≠ Ev.checkErr := h x (List.mem_cons.2 (Or.inl rfl))
    rw [List.cons_append, lastErrAux, if_neg hx, List.foldl_cons]
    exact ih _ l2 (fun y hy => h y (List.mem_cons.2 (Or.inr hy)))

lemma lastErrAux_frozen (e : GoErr) : ∀ l2 : List TEv,
    (∀ t x, (t, Ev.setErr x) ∉ l2) → lastErrAux (some e) l2 = some e := by
  intro l2
  induction l2 with
  | nil =>
    intro _
    rfl
  | cons x rest ih =>
    intro h
    rw [lastErrAux]
    by_cases hc : x.2 = Ev.checkErr
    · rw [if_pos hc]
    · rw [if_neg hc]
      rcases updErr_cases (some e) x.2 with hu | ⟨y, hy, hu⟩
      · rw [hu]
        refine ih ?_
        intro t z hm
        exact h t z (List.mem_cons.2 (Or.inr hm))
      · obtain ⟨t1, e1⟩ := x
        simp only at hy
        rw [hy] at h
        exact absurd (List.mem_cons.2 (Or.inl rfl)) (h t1 y)

/-- Counterexample to claim C1 as stated: a valid complete execution of
the daemon in which the first fatal error to occur is the bootstrap
failure, yet the cause reported at exit is the later accept-loop
failure — the later error on another path did overwrite the reported
cause. -/
theorem C1_counterexample :
    validTrace oTwo cexTr = true ∧ completeTrace oTwo cexTr = true ∧
    firstErr cexTr = some GoErr.bootstrapError ∧
    reported oTwo cexTr = ExitRes.errExit GoErr.acceptLoopError ∧
    GoErr.acceptLoopError ≠ GoErr.bootstrapError := by decide

/-- Claim C1 (amended): the cause reported at exit is the most recent
fatal error assigned to the shared error variable before the main task
reads it — later errors on other paths overwrite earlier ones rather
than being discarded. -/
theorem C1_last_error_wins (o : Outcomes) (tr l1 l2 : List TEv) (t : Tid)
    (e : GoErr)
    (_hv : validTrace o tr = true) (_hc : completeTrace o tr = true)
    (hk : o.killAllWorkers = none)
    (hdec : tr = l1 ++ (t, Ev.setErr e) :: l2)
    (hnochk : ∀ x ∈ l1, x.2 ≠ Ev.checkErr)
    (hlast : ∀ t2 e2, (t2, Ev.setErr e2) ∉ l2) :
    reported o tr = ExitRes.errExit e := by
  have hsplit : tr = (l1 ++ [(t, Ev.setErr e)]) ++ l2 := by
    rw [hdec, List.append_assoc, List.singleton_append]
  have hnochk2 : ∀ x ∈ l1 ++ [(t, Ev.setErr e)], x.2 ≠ Ev.checkErr := by
    intro x hx
    rcases List.mem_append.1 hx with hx1 | hx2
    · exact hnochk x hx1
    · rw [List.mem_singleton.1 hx2]
      simp
  have hfold : List.foldl (fun a (x : TEv) => updErr a x.2) none
      (l1 ++ [(t, Ev.setErr e)]) = some e := by
    rw [List.foldl_append]
    rfl
  have hlerr : lastErrAux none tr = some e := by
    rw [hsplit, lastErrAux_append_no_check _ none l2 hnochk2, hfold]
    exact lastErrAux_frozen e l2 hlast
  rw [reported, hk, hlerr]

/-- Witness for the amended C1 at the two-error execution. -/
theorem C1_witness : reported oTwo cexTr = ExitRes.errExit GoErr.acceptLoopError :=
  C1_last_error_wins oTwo cexTr cexC1l1
    ((Tid.main, Ev.recvQuit) :: (Tid.main, Ev.killAllWorkers none) ::
      [(Tid.main, Ev.checkErr)])
    Tid.disp GoErr.acceptLoopError
    (by decide) (by decide) rfl (by decide) (by decide) (by decide)

/-- Counterexample to claim C6 as stated: an error-triggered shutdown
of a valid complete execution whose exit status does not report the
first fatal error. -/
theorem C6_counterexample :
    validTrace oTwo cexTr = true ∧ completeTrace oTwo cexTr = true ∧
    firstErr cexTr = some GoErr.bootstrapError ∧
    reported oTwo cexTr ≠ ExitRes.errExit GoErr.bootstrapError := by decide

/-- Claim C6 (amended): with worker termination succeeding, the daemon
exits zero on a clean externally requested termination with no fatal
error assigned, and exits non-zero on an error-triggered shutdown,
reporting the error held by the shared variable at the final check —
the most recently assigned fatal error, which is always an error that
actually occurred, though not necessarily the first. -/
theorem C6_exit_status (o : Outcomes) (tr : List TEv)
    (_hv : validTrace o tr = true) (_hc : completeTrace o tr = true)
    (hk : o.killAllWorkers = none) :
    ((∀ t e, (t, Ev.setErr e) ∉ tr) → reported o tr = ExitRes.cleanExit) ∧
    (∀ e, lastErrAux none tr = some e →
       reported o tr = ExitRes.errExit e ∧ ∃ t, (t, Ev.setErr e) ∈ tr) := by
  constructor
  · intro h
    rw [reported, hk, lastErrAux_none tr h]
  · intro e he
    refine ⟨by rw [reported, hk, he], ?_⟩
    rcases lastErrAux_some_mem tr none e he with h | h
    · exact absurd h (by simp)
    · exact h

/-- Witness for the amended C6 at a clean externally terminated run. -/
theorem C6_witness : reported oClean cleanTr = ExitRes.cleanExit :=
  (C6_exit_status oClean cleanTr (by decide) (by decide) rfl).1 (by decide)

/-! Claim C5. -/

/-- Recognizer for broker Publish events. -/
def isPublishEv : Ev → Bool
  | Ev.publish _ _ _ => true
  | _ => false

lemma publish_notin_errSteps (r : Option GoErr) (topic : String)
    (payload : Option Bytes) (q : Option GoErr) :
    Ev.publish topic payload q ∉ errSteps r := by
  cases r <;> simp [errSteps]

/-- Claim C5: on a startup whose client connect, facts lookup and
marshalling succeed, the daemon publishes the handshake exactly once:
the message-router goroutine contains exactly one Publish event, every
trace contains at most one, its topic is the literal handshake topic,
its payload is the JSON serialization of the canonical-facts snapshot
obtained at startup, and in every valid execution the publish happens
after the successful ConnectClient and before the Subscribe call. -/
theorem C5_handshake_published_once (o : Outcomes) (tr l1 l2 : List TEv)
    (hv : validTrace o tr = true)
    (hcc : o.connectClient = none) (hgf : o.getCanonicalFacts = none)
    (hjm : o.jsonMarshal = none) :
    (mrRoutine o).countP isPublishEv = 1 ∧
    tr.countP (fun x => isPublishEv x.2) ≤ 1 ∧
    (∀ topic payload r, Ev.publish topic payload r ∈ mrRoutine o →
       topic = "handshake" ∧ payload = some (Bytes.json (some o.factsVal))) ∧
    (tr = l1 ++ (Tid.mr,
        Ev.publish "handshake" (dataVar o) o.publishHandshake) :: l2 →
       (Tid.mr, Ev.connectClient none) ∈ l1) ∧
    (tr = l1 ++ (Tid.mr, Ev.subscribe o.subscribe) :: l2 →
       (Tid.mr, Ev.publish "handshake" (dataVar o) o.publishHandshake) ∈ l1) := by
  obtain ⟨hmain, hpm, hdisp, hmr, hos, -⟩ := valid_unpack hv
  have hone : (mrRoutine o).countP isPublishEv = 1 := by
    simp [mrRoutine, List.countP_append, List.countP_cons, isPublishEv,
      countP_errSteps_zero isPublishEv rfl (fun _ => rfl)]
  refine ⟨hone, ?_, ?_, ?_, ?_⟩
  · have h1 : (proj Tid.main tr).countP isPublishEv = 0 := by
      have hle := countP_le_of_begins hmain isPublishEv
      have hz : (mainProg o).countP isPublishEv = 0 := by
        cases hk : o.killAllWorkers <;>
          simp [mainProg, hk, isPublishEv, List.countP_cons, List.countP_append]
      omega
    have h2 : (proj Tid.pm tr).countP isPublishEv = 0 := by
      have hle := countP_le_of_begins hpm isPublishEv
      have hz : (pmRoutine o).countP isPublishEv = 0 := by
        cases hb : o.bootstrapWorkers <;>
          simp [pmRoutine, hb, isPublishEv, List.countP_cons, List.countP_append]
      omega
    have h3 : (proj Tid.disp tr).countP isPublishEv = 0 := by
      have hle := countP_le_of_begins hdisp isPublishEv
      have hz : (dispRoutine o).countP isPublishEv = 0 := by
        cases hd : o.listenAndServe <;>
          simp [dispRoutine, hd, isPublishEv, List.countP_cons]
      omega
    have h4 : (proj Tid.mr tr).countP isPublishEv ≤ 1 := by
      have hle := countP_le_of_begins hmr isPublishEv
      omega
    have h5 : (proj Tid.os tr).countP isPublishEv = 0 := by
      rw [countP_eq_zero_forall]
      intro a ha
      have ha2 : a = Ev.sendQuit := by
        simpa using List.all_eq_true.1 hos a ha
      rw [ha2]
      rfl
    rw [countP_proj]
    omega
  · intro topic payload r hm
    have hdata : dataVar o = some (Bytes.json (some o.factsVal)) := by
      simp [dataVar, factsVar, hjm, hgf]
    cases hph : o.publishHandshake <;> cases hsb : o.subscribe <;>
      simp [mrRoutine, errSteps, hcc, hgf, hjm, hph, hsb, hdata] at hm <;>
      exact ⟨hm.1, hm.2.1⟩
  · intro h
    exact before_in_trace hmr h
      [Ev.recvSignal Sig.processBootstrap, Ev.connectClient none]
      ((Ev.getFacts o.getCanonicalFacts :: errSteps o.getCanonicalFacts) ++
       (Ev.marshal (factsVar o) o.jsonMarshal :: errSteps o.jsonMarshal) ++
       (Ev.publish "handshake" (dataVar o) o.publishHandshake ::
         errSteps o.publishHandshake) ++
       (Ev.subscribe o.subscribe :: errSteps o.subscribe))
      (by simp [mrRoutine, hcc, errSteps]) (by simp) (by simp)
  · intro h
    refine before_in_trace hmr h
      (Ev.recvSignal Sig.processBootstrap :: Ev.connectClient none ::
       Ev.getFacts none :: Ev.marshal (some o.factsVal) none ::
       Ev.publish "handshake" (dataVar o) o.publishHandshake ::
       errSteps o.publishHandshake)
      (Ev.subscribe o.subscribe :: errSteps o.subscribe)
      (by simp [mrRoutine, hcc, hgf, hjm, errSteps, factsVar]) (by simp) ?_
    intro hmem
    simp only [List.mem_cons] at hmem
    rcases hmem with hx | hx | hx | hx | hx | hx
    · exact absurd hx (by simp)
    · exact absurd hx (by simp)
    · exact absurd hx (by simp)
    · exact absurd hx (by simp)
    · exact absurd hx (by simp)
    · cases hph : o.publishHandshake <;> rw [hph] at hx <;> simp [errSteps] at hx

/-- Witness for C5 at the full clean run. -/
theorem C5_witness :
    (Tid.mr, Ev.publish "handshake" (dataVar oClean) oClean.publishHandshake)
      ∈ w4l1 :=
  (C5_handshake_published_once oClean fullTr w4l1 w4l2
    (by decide) rfl rfl rfl).2.2.2.2 (by decide)

/-! Claim C8: the process-bootstrap subscription races with the
publish of the process-bootstrap signal. -/

lemma sigOkFrom_append (s : Sig) : ∀ (l1 l2 : List TEv) (st : Bool × Nat),
    sigOkFrom s st (l1 ++ l2) =
      (sigOkFrom s st l1 && sigOkFrom s (List.foldl (sigStep s) st l1) l2) := by
  intro l1
  induction l1 with
  | nil =>
    intro l2 st
    simp [sigOkFrom]
  | cons x l1 ih =>
    intro l2 st
    rw [List.cons_append, sigOkFrom, sigOkFrom, List.foldl_cons, ih,
      Bool.and_assoc]

lemma sigOkFrom_no_delivery (s : Sig) : ∀ (l : List TEv) (c : Bool),
    sigOkFrom s (c, 0) l = true →
    (∀ x ∈ l, x.2 ≠ Ev.publishSignal s) →
    ∀ x ∈ l, x.2 ≠ Ev.recvSignal s := by
  intro l
  induction l with
  | nil =>
    intro c _ _ x hx
    exact absurd hx (List.not_mem_nil x)
  | cons x l ih =>
    intro c hok hnp y hy
    rw [sigOkFrom, Bool.and_eq_true] at hok
    obtain ⟨hguard, hrest⟩ := hok
    have hxp : x.2 ≠ Ev.publishSignal s := hnp x (List.mem_cons.2 (Or.inl rfl))
    rcases List.mem_cons.1 hy with rfl | hy2
    · intro hr
      rw [if_pos hr] at hguard
      simp at hguard
    · have hsnd : (sigStep s (c, 0) x).2 = 0 := by
        simp only [sigStep]
        by_cases h1 : x.2 = Ev.connectSignal s
        · simp [h1]
        · by_cases h3 : x.2 = Ev.recvSignal s
          · simp [h1, hxp, h3]
          · simp [h1, hxp, h3]
      rcases hq : sigStep s (c, 0) x with ⟨c2, n2⟩
      rw [hq] at hrest hsnd
      have hn2 : n2 = 0 := hsnd
      subst hn2
      exact ih c2 hrest
        (fun z hz => hnp z (List.mem_cons.2 (Or.inr hz))) y hy2

/-- Recognizer of the publish event of the process-bootstrap signal. -/
def pubPBe (e : Ev) : Bool :=
  decide (e = Ev.publishSignal Sig.processBootstrap)

/-- Recognizer, as a predicate on trace entries, of the publish of the
process-bootstrap signal. -/
def isPubPB (x : TEv) : Bool :=
  pubPBe x.2

lemma pubPB_at_most_once {tr : List TEv}
    (hv : validTrace oClean tr = true) : tr.countP isPubPB ≤ 1 := by
  obtain ⟨hmain, hpm, hdisp, hmr, hos, -⟩ := valid_unpack hv
  have hp : isPubPB = fun x : TEv => pubPBe x.2 := rfl
  have h1 : (proj Tid.main tr).countP pubPBe = 0 := by
    have hle := countP_le_of_begins hmain pubPBe
    have hz : (mainProg oClean).countP pubPBe = 0 := by decide
    omega
  have h2 : (proj Tid.pm tr).countP pubPBe ≤ 1 := by
    have hle := countP_le_of_begins hpm pubPBe
    have hz : (pmRoutine oClean).countP pubPBe = 1 := by decide
    omega
  have h3 : (proj Tid.disp tr).countP pubPBe = 0 := by
    have hle := countP_le_of_begins hdisp pubPBe
    have hz : (dispRoutine oClean).countP pubPBe = 0 := by decide
    omega
  have h4 : (proj Tid.mr tr).countP pubPBe = 0 := by
    have hle := countP_le_of_begins hmr pubPBe
    have hz : (mrRoutine oClean).countP pubPBe = 0 := by decide
    omega
  have h5 : (proj Tid.os tr).countP pubPBe = 0 := by
    rw [countP_eq_zero_forall]
    intro a ha
    have ha2 : a = Ev.sendQuit := by
      simpa using List.all_eq_true.1 hos a ha
    rw [ha2]
    rfl
  rw [hp, countP_proj]
  omega

/-- Claim C8 fails on the code: tr8 is a valid execution allowed by the
source in which the process-bootstrap signal is published before the
main task has made the Connect call of line 159 that subscribes to it;
by the drop semantics of the bus the value is lost, and in every valid
continuation of this execution the message-router goroutine never runs
a single step — it stays blocked on its subscription channel forever,
so ConnectClient, the handshake and Subscribe never happen. -/
theorem C8_bootstrap_signal_race :
    validTrace oClean tr8 = true ∧
    tr8 = tr8a ++ (Tid.main, Ev.connectSignal Sig.processBootstrap) ::
      [(Tid.main, Ev.spawn Tid.mr)] ∧
    (Tid.pm, Ev.publishSignal Sig.processBootstrap) ∈ tr8a ∧
    (∀ tr rest, tr = tr8 ++ rest → validTrace oClean tr = true →
       proj Tid.mr tr = []) := by
  refine ⟨by decide, by decide, by decide, ?_⟩
  intro tr rest hsplit hv
  have hmr := (valid_unpack hv).2.2.2.1
  have hsig := (valid_unpack hv).2.2.2.2.2.2.2
  -- After tr8 the delivery state of process-bootstrap is: subscribed,
  -- but zero undelivered values (the only publish happened before the
  -- Connect and was dropped).
  have hst : List.foldl (sigStep Sig.processBootstrap) (false, 0) tr8 =
      (true, 0) := by decide
  have hrest : sigOkFrom Sig.processBootstrap (true, 0) rest = true := by
    rw [hsplit, sigOkFrom_append, hst, Bool.and_eq_true] at hsig
    exact hsig.2
  -- No further publish of process-bootstrap can occur in the rest.
  have hcount : tr.countP isPubPB ≤ 1 := pubPB_at_most_once hv
  have hc8 : tr8.countP isPubPB = 1 := by decide
  have hrest0 : rest.countP isPubPB = 0 := by
    rw [hsplit, List.countP_append, hc8] at hcount
    omega
  have hnp : ∀ x ∈ rest, x.2 ≠ Ev.publishSignal Sig.processBootstrap := by
    intro x hx
    have := (countP_eq_zero_forall isPubPB rest).1 hrest0 x hx
    simpa [isPubPB, pubPBe] using this
  -- Hence no receive on the process-bootstrap subscription in the rest,
  have hnr : ∀ x ∈ rest, x.2 ≠ Ev.recvSignal Sig.processBootstrap :=
    sigOkFrom_no_delivery Sig.processBootstrap rest true hrest hnp
  -- and none in tr8 either.
  have hnr8 : ∀ x ∈ tr8, x.2 ≠ Ev.recvSignal Sig.processBootstrap := by decide
  have hnrtr : (Tid.mr, Ev.recvSignal Sig.processBootstrap) ∉ tr := by
    intro hm
    rw [hsplit] at hm
    rcases List.mem_append.1 hm with hm | hm
    · exact hnr8 _ hm rfl
    · exact hnr _ hm rfl
  -- The message-router program starts with that receive, so its
  -- projection must be empty.
  cases hproj : proj Tid.mr tr with
  | nil => rfl
  | cons e l =>
    rw [hproj] at hmr
    obtain ⟨w, hw⟩ := (begins_iff _ _).1 hmr
    have hhead : Ev.recvSignal Sig.processBootstrap = e := by
      have hw2 : Ev.recvSignal Sig.processBootstrap ::
          ((Ev.connectClient oClean.connectClient ::
              errSteps oClean.connectClient) ++
           (Ev.getFacts oClean.getCanonicalFacts ::
              errSteps oClean.getCanonicalFacts) ++
           (Ev.marshal (factsVar oClean) oClean.jsonMarshal ::
              errSteps oClean.jsonMarshal) ++
           (Ev.publish "handshake" (dataVar oClean) oClean.publishHandshake ::
              errSteps oClean.publishHandshake) ++
           (Ev.subscribe oClean.subscribe :: errSteps oClean.subscribe)) =
          e :: (l ++ w) := hw
      injection hw2 with h1 _
    have hmem : (Tid.mr, e) ∈ tr := by
      refine mem_proj.1 ?_
      rw [hproj]
      exact List.mem_cons.2 (Or.inl rfl)
    rw [← hhead] at hmem
    exact absurd hmem hnrtr

/-- Witness for C8: the racy execution itself already leaves the
message-router goroutine without a single executed step. -/
theorem C8_witness : proj Tid.mr tr8 = [] :=
  C8_bootstrap_signal_race.2.2.2 tr8 [] (by simp) (by decide)

end Yggd
